import Mathlib

/-!
# Quakemon data-synchronization engine: shallow embedding

A shallow embedding of the non-presentational core of `src/App.tsx`
(the Quakemon earthquake monitor): the `parseFloat`-based magnitude
classification, the base64/JSON change signature, the latest-event XML
parser, the list-feed extraction, the notification gate, the body of
`fetchAllEarthquakeData`, and the auto-update timer effect.

Modelling conventions:
* A JavaScript number that can be `NaN` is modelled as `Option ℚ`
  (`none` = `NaN`); every `<`/`>=` comparison against `NaN` is `false`,
  which `jsLt`/`jsGe` encode. Magnitude strings use finite decimal
  notation, so exact rational arithmetic matches the double arithmetic
  of the source on every comparison performed here.
* The browser's `DOMParser` is a primitive: an XML payload is modelled
  after DOM parsing, as an optional `gempa` element holding its child
  tags (tag name, text content) in document order. A payload whose
  `querySelector` finds no `gempa` element has `gempa = none`; this is
  also what `DOMParser` yields on malformed XML.
* `btoa` and `JSON.stringify` are implemented faithfully (standard
  base64 alphabet with `=` padding; JSON string escaping, insertion
  order of the three keys, no whitespace).
* React state updates inside one invocation of `fetchAllEarthquakeData`
  are modelled by explicit state passing; a `useState` variable read in
  the body denotes the pre-cycle value (the closure value), exactly as
  in the source.
-/

/-! ## JS `parseFloat`, modelled over ℚ -/

/-- Whitespace skipped by `parseFloat` before the number. -/
def jsWhitespace (c : Char) : Bool :=
  (c == ' ') || (c == '\t') || (c == '\n') || (c == '\r') || (c == '\x0b') || (c == '\x0c')

/-- Value of a digit run, most significant first. -/
def digitsToNat (ds : List Char) : Nat :=
  ds.foldl (fun acc c => acc * 10 + (c.toNat - '0'.toNat)) 0

/-- JS `parseFloat` on decimal notation: skip leading whitespace, optional
sign, integer digits, optional fraction, optional exponent; parse the
longest valid prefix and ignore the rest; `none` (= `NaN`) when no digit
was consumed. (`Infinity` and hex forms do not occur in agency magnitude
strings and are out of the model.) -/
def parseFloatQ (s : String) : Option ℚ :=
  let cs := s.data.dropWhile jsWhitespace
  let signRest : ℚ × List Char :=
    match cs with
    | '-' :: rest => (-1, rest)
    | '+' :: rest => (1, rest)
    | _ => (1, cs)
  let intDigits := signRest.2.takeWhile Char.isDigit
  let afterInt := signRest.2.dropWhile Char.isDigit
  let fracRest : List Char × List Char :=
    match afterInt with
    | '.' :: rest => (rest.takeWhile Char.isDigit, rest.dropWhile Char.isDigit)
    | _ => ([], afterInt)
  if intDigits.isEmpty && fracRest.1.isEmpty then none
  else
    let expVal : Int :=
      match fracRest.2 with
      | c :: rest =>
        if c == 'e' || c == 'E' then
          let eSignRest : Int × List Char :=
            match rest with
            | '-' :: r => (-1, r)
            | '+' :: r => (1, r)
            | _ => (1, rest)
          let eds := eSignRest.2.takeWhile Char.isDigit
          if eds.isEmpty then 0 else eSignRest.1 * (digitsToNat eds : Int)
        else 0
      | [] => 0
    some (signRest.1 *
      ((digitsToNat intDigits : ℚ) +
        (digitsToNat fracRest.1 : ℚ) / (10 : ℚ) ^ fracRest.1.length) *
      (10 : ℚ) ^ expVal)

/-- JS `x < y` where `x` may be `NaN`: `NaN < y` is `false`. -/
def jsLt (x : Option ℚ) (y : ℚ) : Bool :=
  match x with
  | some q => decide (q < y)
  | none => false

/-- JS `x >= y` where `x` may be `NaN`: `NaN >= y` is `false`. -/
def jsGe (x : Option ℚ) (y : ℚ) : Bool :=
  match x with
  | some q => decide (y ≤ q)
  | none => false

/-! ## Data model (`EarthquakeData`, `RecentEarthquake`, feed shapes) -/

/-- The latest-event record (`interface EarthquakeData`). -/
structure EarthquakeData where
  Tanggal : String
  Jam : String
  DateTime : String
  coordinates : String
  Lintang : String
  Bujur : String
  Magnitude : String
  Kedalaman : String
  Wilayah : String
  Potensi : String
  Dirasakan : String
  Shakemap : String
deriving DecidableEq

/-- A list-feed entry (`interface RecentEarthquake`). -/
structure RecentEarthquake where
  Tanggal : String
  Jam : String
  DateTime : String
  Coordinates : String
  Lintang : String
  Bujur : String
  Magnitude : String
  Kedalaman : String
  Wilayah : String
  Potensi : String
  Dirasakan : Option String
deriving DecidableEq

/-- The inner `Infogempa` object of a list feed; `gempa` may be absent. -/
structure Infogempa where
  gempa : Option (List RecentEarthquake)
deriving DecidableEq

/-- A parsed list-feed JSON document (`interface RecentEarthquakeData`);
the `Infogempa` wrapper may be absent. -/
structure RecentEarthquakeData where
  Infogempa : Option Infogempa
deriving DecidableEq

/-- The extraction `recentData.Infogempa?.gempa?.slice(0, 15) || []`
applied to a well-formed list-feed document: optional chaining yields
`undefined` (hence `[]`) when the wrapper or the inner array is absent,
else the first 15 entries in feed order. -/
def extractFeedList (d : RecentEarthquakeData) : List RecentEarthquake :=
  match d.Infogempa with
  | some ig =>
    match ig.gempa with
    | some l => l.take 15
    | none => []
  | none => []

/-! ## `parseXMLData` -/

/-- A latest-event XML payload after `DOMParser`: the `gempa` element, when
present, is its list of child tags (name, raw text content) in document
order; `none` when `querySelector` finds no `gempa` element (missing root
or malformed XML). -/
structure XMLDoc where
  gempa : Option (List (String × String))
deriving DecidableEq

/-- JS `String.prototype.trim`: strip leading and trailing whitespace
(the ASCII whitespace occurring in the agency's XML payloads). -/
def jsTrim (s : String) : String :=
  String.mk (((s.data.dropWhile jsWhitespace).reverse.dropWhile jsWhitespace).reverse)

/-- `getData` inside `parseXMLData`: first matching tag's text content,
trimmed; `''` when the tag is absent (`element?.textContent?.trim() || ''`;
`|| ''` maps the empty trim to itself, so it is the identity here). -/
def getData (tags : List (String × String)) (tagName : String) : String :=
  match tags.lookup tagName with
  | some s => jsTrim s
  | none => ""

/-- `parseXMLData`: `null` when no `gempa` element is found (the thrown
error is caught inside the function), else the record with each field
extracted independently by tag name. -/
def parseXMLData (doc : XMLDoc) : Option EarthquakeData :=
  match doc.gempa with
  | none => none
  | some tags =>
    some
      { Tanggal := getData tags "Tanggal"
        Jam := getData tags "Jam"
        DateTime := getData tags "DateTime"
        coordinates := getData tags "coordinates"
        Lintang := getData tags "Lintang"
        Bujur := getData tags "Bujur"
        Magnitude := getData tags "Magnitude"
        Kedalaman := getData tags "Kedalaman"
        Wilayah := getData tags "Wilayah"
        Potensi := getData tags "Potensi"
        Dirasakan := getData tags "Dirasakan"
        Shakemap := getData tags "Shakemap" }

/-! ## `generateDataHash`: `btoa(JSON.stringify({latest, recent, felt}))` -/

/-- Character of a base64 sextet (standard alphabet, as used by `btoa`). -/
def sextetChar (n : Nat) : Char :=
  if n < 26 then Char.ofNat ('A'.toNat + n)
  else if n < 52 then Char.ofNat ('a'.toNat + (n - 26))
  else if n < 62 then Char.ofNat ('0'.toNat + (n - 52))
  else if n == 62 then '+'
  else '/'

/-- Sextet value of a base64 character (left inverse of `sextetChar`). -/
def sextetVal (c : Char) : Nat :=
  if 'A' ≤ c ∧ c ≤ 'Z' then c.toNat - 'A'.toNat
  else if 'a' ≤ c ∧ c ≤ 'z' then c.toNat - 'a'.toNat + 26
  else if '0' ≤ c ∧ c ≤ '9' then c.toNat - '0'.toNat + 52
  else if c = '+' then 62
  else 63

/-- Base64 encoding of a byte sequence, with `=` padding, as `btoa`. -/
def b64encode : List Nat → List Char
  | [] => []
  | [b0] => [sextetChar (b0 / 4), sextetChar (b0 % 4 * 16), '=', '=']
  | [b0, b1] =>
      [sextetChar (b0 / 4), sextetChar (b0 % 4 * 16 + b1 / 16), sextetChar (b1 % 16 * 4), '=']
  | b0 :: b1 :: b2 :: rest =>
      sextetChar (b0 / 4) :: sextetChar (b0 % 4 * 16 + b1 / 16) ::
      sextetChar (b1 % 16 * 4 + b2 / 64) :: sextetChar (b2 % 64) :: b64encode rest

/-- Base64 decoding (used only to prove `b64encode` injective). -/
def b64decode : List Char → List Nat
  | c0 :: c1 :: c2 :: c3 :: rest =>
      if c2 = '=' then [sextetVal c0 * 4 + sextetVal c1 / 16]
      else if c3 = '=' then
        [sextetVal c0 * 4 + sextetVal c1 / 16, sextetVal c1 % 16 * 16 + sextetVal c2 / 4]
      else
        (sextetVal c0 * 4 + sextetVal c1 / 16) ::
        (sextetVal c1 % 16 * 16 + sextetVal c2 / 4) ::
        (sextetVal c2 % 4 * 64 + sextetVal c3) ::
        b64decode rest
  | _ => []

/-- `btoa`: base64 over the string's code points taken as bytes (all
strings hashed here are ASCII, within `btoa`'s latin1 domain). -/
def btoa (s : String) : String :=
  String.mk (b64encode (s.data.map Char.toNat))

/-- Hex digit used by `JSON.stringify` for `\u00XX` escapes. -/
def hexDigitChar (n : Nat) : Char :=
  if n < 10 then Char.ofNat ('0'.toNat + n) else Char.ofNat ('a'.toNat + (n - 10))

/-- `JSON.stringify` escaping of one character inside a string literal. -/
def jsonEscapeChar (c : Char) : List Char :=
  if c == '"' then ['\\', '"']
  else if c == '\\' then ['\\', '\\']
  else if c == '\x08' then ['\\', 'b']
  else if c == '\x0c' then ['\\', 'f']
  else if c == '\n' then ['\\', 'n']
  else if c == '\r' then ['\\', 'r']
  else if c == '\t' then ['\\', 't']
  else if c.toNat < 0x20 then
    ['\\', 'u', '0', '0', hexDigitChar (c.toNat / 16), hexDigitChar (c.toNat % 16)]
  else [c]

/-- A JSON string literal: quotes around the escaped characters. -/
def jsonQuote (s : String) : String :=
  "\"" ++ String.mk (s.data.flatMap jsonEscapeChar) ++ "\""

/-- `JSON.stringify({latest, recent, felt})` with string values: insertion
order of the keys, no whitespace. -/
def jsonStringifyHashData (latest recent felt : String) : String :=
  "\x7b\"latest\":" ++ jsonQuote latest ++ ",\"recent\":" ++ jsonQuote recent ++
    ",\"felt\":" ++ jsonQuote felt ++ "\x7d"

/-- JS `Array.prototype.join(',')`. -/
def joinComma : List String → String
  | [] => ""
  | [a] => a
  | a :: rest => a ++ "," ++ joinComma rest

/-- `generateDataHash`: base64 of the JSON object built from the latest
event's `DateTime` (or `''` when absent — `latest?.DateTime || ''`) and
the comma-joined `DateTime`s of the two lists. -/
def generateDataHash (latest : Option EarthquakeData)
    (recent felt : List RecentEarthquake) : String :=
  btoa (jsonStringifyHashData
    ((latest.map EarthquakeData.DateTime).getD "")
    (joinComma (recent.map RecentEarthquake.DateTime))
    (joinComma (felt.map RecentEarthquake.DateTime)))

/-! ## The refresh cycle (`fetchAllEarthquakeData`) -/

/-- The component state touched by a refresh cycle (the `useState`
variables of `App`, minus pure presentation). `lastUpdated` is an abstract
instant. -/
structure AppState where
  latestEarthquake : Option EarthquakeData
  recentEarthquakes : List RecentEarthquake
  feltEarthquakes : List RecentEarthquake
  loading : Bool
  error : Option String
  hasNewData : Bool
  lastDataHash : String
  lastUpdated : Option Nat
deriving DecidableEq

/-- The `useState` initial values. -/
def initialAppState : AppState :=
  { latestEarthquake := none
    recentEarthquakes := []
    feltEarthquakes := []
    loading := true
    error := none
    hasNewData := false
    lastDataHash := ""
    lastUpdated := none }

/-- The environment one cycle observes: outcome of each of the three
fetches, the notification permission, and the clock.
`latestOk` is `fetch` resolving with `response.ok` on `autogempa.xml`;
`recentOk`/`feltOk` additionally include `response.json()` succeeding
(a rejected fetch, a non-success status and malformed JSON all leave the
corresponding list empty via the inner `try`/`catch`).
`notificationGranted` is `'Notification' in window &&
Notification.permission === 'granted'`. -/
structure FetchEnv where
  latestOk : Bool
  latestXML : XMLDoc
  recentOk : Bool
  recentData : RecentEarthquakeData
  feltOk : Bool
  feltData : RecentEarthquakeData
  notificationGranted : Bool
  now : Nat
deriving DecidableEq

/-- Result of one cycle: the state after React applies the queued updates,
and whether `new Notification(...)` was dispatched. -/
structure CycleResult where
  state : AppState
  notified : Bool
deriving DecidableEq

/-- The notification gate inside `fetchAllEarthquakeData`: the outer
change test (`lastDataHash && newHash !== lastDataHash && silent`)
conjoined with the inner alert test (`parsedLatest &&
parseFloat(parsedLatest.Magnitude) >= 6.0` under granted permission). -/
def shouldNotify (lastDataHash newHash : String) (silent : Bool)
    (parsedLatest : Option EarthquakeData) (granted : Bool) : Bool :=
  (lastDataHash != "") && (newHash != lastDataHash) && silent &&
    (match parsedLatest with
     | some e => jsGe (parseFloatQ e.Magnitude) 6
     | none => false) && granted

/-- The body of `fetchAllEarthquakeData(silent)`. State reads are the
closure (pre-cycle) values, state writes are queued and applied in order;
a failed latest fetch throws past the commits into the `catch`/`finally`
blocks. -/
def fetchAllEarthquakeData (silent : Bool) (env : FetchEnv) (s : AppState) : CycleResult :=
  let s0 := if silent then s else { s with loading := true, error := none }
  if env.latestOk then
    let parsedLatest := parseXMLData env.latestXML
    let newRecent := if env.recentOk then extractFeedList env.recentData else []
    let newFelt := if env.feltOk then extractFeedList env.feltData else []
    let newHash := generateDataHash parsedLatest newRecent newFelt
    let hashChanged := (s.lastDataHash != "") && (newHash != s.lastDataHash) && silent
    let s1 := if hashChanged then { s0 with hasNewData := true } else s0
    let notifiedNow := shouldNotify s.lastDataHash newHash silent parsedLatest
      env.notificationGranted
    let s2 :=
      match parsedLatest with
      | some e => { s1 with latestEarthquake := some e }
      | none => s1
    let s3 := { s2 with recentEarthquakes := newRecent, feltEarthquakes := newFelt,
                        lastDataHash := newHash, lastUpdated := some env.now }
    let s4 := if s.hasNewData && !silent then { s3 with hasNewData := false } else s3
    let s5 := if silent then s4 else { s4 with loading := false }
    { state := s5, notified := notifiedNow }
  else
    let sE := if silent then s0
      else { s0 with error := some "Gagal mengambil data gempa. Silakan coba lagi." }
    let sF := if silent then sE else { sE with loading := false }
    { state := sF, notified := false }

/-! ## `getMagnitudeInfo` -/

/-- `getMagnitudeInfo`, restricted to the classification label (the colour
and icon fields are presentation determined by the same branch). The
source compares `parseFloat(magnitude)` with `<`; both comparisons are
`false` on `NaN`, so an unparsable magnitude falls through to the final
`else`. -/
def getMagnitudeInfo (magnitude : String) : String :=
  let mag := parseFloatQ magnitude
  if jsLt mag 5 then "Gempa Ringan"
  else if jsLt mag 6 then "Gempa Sedang"
  else "Gempa Kuat"

/-! ## The auto-update effect (`useEffect` at the timer) -/

/-- Scheduler state: the `autoUpdate` flag and whether the 30-second
interval is currently armed. -/
structure SchedulerState where
  autoUpdate : Bool
  intervalArmed : Bool
deriving DecidableEq

/-- One run of the auto-update `useEffect` body after its cleanup: the
body calls `fetchAllEarthquakeData()` unconditionally (counted in the
second component as an immediate foreground fetch), then arms the
30-second interval exactly when `autoUpdate` holds. -/
def runAutoUpdateEffect (auto : Bool) : SchedulerState × Nat :=
  ({ autoUpdate := auto, intervalArmed := auto }, 1)

/-- `setAutoUpdate(!autoUpdate)` from the toggle button: the re-render
changes the effect's dependency array, so React runs the cleanup
(`clearInterval`, disarming any pending timer) and then the effect body
again. -/
def toggleAutoUpdate (s : SchedulerState) : SchedulerState × Nat :=
  runAutoUpdateEffect (!s.autoUpdate)

/-! ## Plain (timestamp-like) strings -/

/-- A character `JSON.stringify` leaves unescaped and `btoa` accepts:
printable ASCII other than the quote and the backslash. Every character
of an ISO-8601 timestamp qualifies. -/
def plainChar (c : Char) : Bool :=
  (0x20 ≤ c.toNat) && (c.toNat < 0x7f) && (c != '"') && (c != '\\')

/-- All characters of the string are plain. -/
def plainStr (s : String) : Bool := s.data.all plainChar

/-- The string contains no comma (true of ISO-8601 timestamps). -/
def noComma (s : String) : Bool := s.data.all (fun c => c != ',')


/-! ## Characterizing one refresh cycle -/

/-- The signature a cycle computes from its fetched payloads. -/
def cycleHash (env : FetchEnv) : String :=
  generateDataHash (parseXMLData env.latestXML)
    (if env.recentOk then extractFeedList env.recentData else [])
    (if env.feltOk then extractFeedList env.feltData else [])

/-! ## Sample data for witnesses and counterexamples -/

/-- A list-feed record carrying only a UTC timestamp. -/
def tsRec (t : String) : RecentEarthquake :=
  { Tanggal := "", Jam := "", DateTime := t, Coordinates := "", Lintang := "", Bujur := "",
    Magnitude := "", Kedalaman := "", Wilayah := "", Potensi := "", Dirasakan := none }

def recA : RecentEarthquake := tsRec "2024-01-01T00:00:00+00:00"

def recB : RecentEarthquake := tsRec "2024-01-02T03:04:05+00:00"

def xmlC7 : XMLDoc := ⟨some [("DateTime", "2024-05-01T10:00:00+00:00"), ("Magnitude", "5.4")]⟩

def eC7 : EarthquakeData :=
  { Tanggal := "", Jam := "", DateTime := "2024-05-01T10:00:00+00:00", coordinates := "",
    Lintang := "", Bujur := "", Magnitude := "5.4", Kedalaman := "", Wilayah := "",
    Potensi := "", Dirasakan := "", Shakemap := "" }

def envC7 : FetchEnv :=
  { latestOk := true, latestXML := xmlC7, recentOk := false, recentData := ⟨none⟩,
    feltOk := true, feltData := ⟨some ⟨some [tsRec "2024-04-30T00:00:00+00:00"]⟩⟩,
    notificationGranted := true, now := 2 }

def envC3 : FetchEnv :=
  { latestOk := true, latestXML := ⟨none⟩, recentOk := false, recentData := ⟨none⟩,
    feltOk := false, feltData := ⟨none⟩, notificationGranted := false, now := 1 }

def stateC3 : AppState :=
  { initialAppState with
    recentEarthquakes := [tsRec "2024-01-01T00:00:00+00:00"], lastDataHash := "S0" }

def xmlC8 : XMLDoc := ⟨some [("DateTime", "2024-06-01T00:00:00+00:00"), ("Magnitude", "7.0")]⟩

def envC8 : FetchEnv :=
  { latestOk := true, latestXML := xmlC8, recentOk := false, recentData := ⟨none⟩,
    feltOk := false, feltData := ⟨none⟩, notificationGranted := true, now := 3 }

def stateC8 : AppState := { initialAppState with lastDataHash := cycleHash envC8 }

def envC6 : FetchEnv :=
  { latestOk := false, latestXML := ⟨none⟩, recentOk := true, recentData := ⟨none⟩,
    feltOk := true, feltData := ⟨none⟩, notificationGranted := true, now := 5 }

/-! ## Injectivity of the signature pipeline -/

theorem str_append_data (s t : String) : (s ++ t).data = s.data ++ t.data := rfl

theorem sextetVal_sextetChar : ∀ n, n < 64 → sextetVal (sextetChar n) = n := by decide

theorem sextetChar_ne_pad : ∀ n, n < 64 → sextetChar n ≠ '=' := by decide

/-- Decoding inverts encoding on byte sequences. -/
theorem b64decode_b64encode : ∀ (bs : List Nat), (∀ b ∈ bs, b < 256) →
    b64decode (b64encode bs) = bs
  | [], _ => rfl
  | [b0], h => by
    have hb0 : b0 < 256 := h b0 (by simp)
    simp only [b64encode, b64decode]
    simp only [if_true]
    rw [sextetVal_sextetChar _ (by omega), sextetVal_sextetChar _ (by omega)]
    simp only [List.cons.injEq, and_true]
    omega
  | [b0, b1], h => by
    have hb0 : b0 < 256 := h b0 (by simp)
    have hb1 : b1 < 256 := h b1 (by simp)
    simp only [b64encode, b64decode]
    rw [if_neg (sextetChar_ne_pad _ (by omega))]; simp only [if_true]
    rw [sextetVal_sextetChar _ (by omega), sextetVal_sextetChar _ (by omega),
      sextetVal_sextetChar _ (by omega)]
    simp only [List.cons.injEq, and_true]
    omega
  | b0 :: b1 :: b2 :: rest, h => by
    have hb0 : b0 < 256 := h b0 (by simp)
    have hb1 : b1 < 256 := h b1 (by simp)
    have hb2 : b2 < 256 := h b2 (by simp)
    have ih := b64decode_b64encode rest (fun b hb => h b (by simp [hb]))
    simp only [b64encode, b64decode]
    rw [if_neg (sextetChar_ne_pad _ (by omega)), if_neg (sextetChar_ne_pad _ (by omega))]
    rw [sextetVal_sextetChar _ (by omega), sextetVal_sextetChar _ (by omega),
      sextetVal_sextetChar _ (by omega), sextetVal_sextetChar _ (by omega)]
    rw [ih]
    simp only [List.cons.injEq, and_true]
    omega

theorem b64encode_inj {bs cs : List Nat} (hb : ∀ b ∈ bs, b < 256) (hc : ∀ c ∈ cs, c < 256)
    (h : b64encode bs = b64encode cs) : bs = cs := by
  rw [← b64decode_b64encode bs hb, ← b64decode_b64encode cs hc, h]

theorem char_toNat_inj {a b : Char} (h : a.toNat = b.toNat) : a = b := by
  cases a; cases b
  simp only [Char.toNat] at h
  congr 1
  exact UInt32.ext h

/-- `btoa` is injective on latin1-range strings. -/
theorem btoa_inj {s t : String} (hs : ∀ c ∈ s.data, c.toNat < 256)
    (ht : ∀ c ∈ t.data, c.toNat < 256) (h : btoa s = btoa t) : s = t := by
  have h2 : b64encode (s.data.map Char.toNat) = b64encode (t.data.map Char.toNat) :=
    congrArg String.data h
  have hbs : ∀ b ∈ s.data.map Char.toNat, b < 256 := by
    intro b hb
    obtain ⟨c, hc', rfl⟩ := List.mem_map.mp hb
    exact hs c hc'
  have hbt : ∀ b ∈ t.data.map Char.toNat, b < 256 := by
    intro b hb
    obtain ⟨c, hc', rfl⟩ := List.mem_map.mp hb
    exact ht c hc'
  have h3 := b64encode_inj hbs hbt h2
  have h4 : s.data = t.data := by
    have : Function.Injective Char.toNat := fun a b hab => char_toNat_inj hab
    exact List.map_injective_iff.mpr this h3
  exact String.ext h4

/-- Splitting at a separator character that occurs in neither prefix. -/
theorem sep_split (ch : Char) : ∀ (a b u v : List Char),
    (∀ c ∈ a, c ≠ ch) → (∀ c ∈ b, c ≠ ch) →
    a ++ ch :: u = b ++ ch :: v → a = b ∧ u = v
  | [], [], _, _, _, _, h => by simpa using h
  | [], b0 :: bs, _, _, _, hb, h => by
    simp only [List.nil_append, List.cons_append, List.cons.injEq] at h
    exact absurd h.1.symm (hb b0 (by simp))
  | a0 :: as, [], _, _, ha, _, h => by
    simp only [List.nil_append, List.cons_append, List.cons.injEq] at h
    exact absurd h.1 (ha a0 (by simp))
  | a0 :: as, b0 :: bs, u, v, ha, hb, h => by
    simp only [List.cons_append, List.cons.injEq] at h
    obtain ⟨h1, h2⟩ := h
    obtain ⟨h3, h4⟩ := sep_split ch as bs u v
      (fun c hc => ha c (by simp [hc])) (fun c hc => hb c (by simp [hc])) h2
    exact ⟨by rw [h1, h3], h4⟩

theorem plain_no_quote {s : String} (h : plainStr s = true) : ∀ c ∈ s.data, c ≠ '"' := by
  intro c hc
  have hp := (List.all_eq_true.mp h) c hc
  simp only [plainChar, Bool.and_eq_true, bne_iff_ne] at hp
  exact hp.1.2

theorem no_comma_chars {s : String} (h : noComma s = true) : ∀ c ∈ s.data, c ≠ ',' := by
  intro c hc
  have hp := (List.all_eq_true.mp h) c hc
  simpa using hp

theorem jsonEscapeChar_plain {c : Char} (h : plainChar c = true) : jsonEscapeChar c = [c] := by
  simp only [plainChar, Bool.and_eq_true, decide_eq_true_eq, bne_iff_ne] at h
  obtain ⟨⟨⟨h1, h2⟩, h3⟩, h4⟩ := h
  unfold jsonEscapeChar
  split_ifs with hq hb h8 hf hn hr ht hlow
  · exact absurd (eq_of_beq hq) h3
  · exact absurd (eq_of_beq hb) h4
  · rw [eq_of_beq h8] at h1; exact absurd h1 (by decide)
  · rw [eq_of_beq hf] at h1; exact absurd h1 (by decide)
  · rw [eq_of_beq hn] at h1; exact absurd h1 (by decide)
  · rw [eq_of_beq hr] at h1; exact absurd h1 (by decide)
  · rw [eq_of_beq ht] at h1; exact absurd h1 (by decide)
  · omega
  · rfl

theorem flatMap_jsonEscape_plain : ∀ (l : List Char), (∀ c ∈ l, plainChar c = true) →
    l.flatMap jsonEscapeChar = l
  | [], _ => rfl
  | c :: cs, h => by
    have hc : jsonEscapeChar c = [c] := jsonEscapeChar_plain (h c (by simp))
    have ih := flatMap_jsonEscape_plain cs (fun d hd => h d (by simp [hd]))
    simp [List.flatMap_cons, hc, ih]

theorem jsonQuote_plain {s : String} (h : plainStr s = true) :
    (jsonQuote s).data = '"' :: (s.data ++ ['"']) := by
  unfold jsonQuote
  simp only [str_append_data]
  rw [flatMap_jsonEscape_plain s.data (fun c hc => (List.all_eq_true.mp h) c hc)]
  simp

/-- The serialized hash object, laid out for prefix/separator splitting. -/
theorem stringify_data {l r f : String} (hl : plainStr l = true) (hr : plainStr r = true)
    (hf : plainStr f = true) :
    (jsonStringifyHashData l r f).data =
      "\x7b\"latest\":\"".data ++ (l.data ++ ('"' :: (",\"recent\":\"".data ++
        (r.data ++ ('"' :: (",\"felt\":\"".data ++ (f.data ++ ('"' :: "\x7d".data)))))))) := by
  unfold jsonStringifyHashData
  simp only [str_append_data, jsonQuote_plain hl, jsonQuote_plain hr, jsonQuote_plain hf,
    List.append_assoc, List.cons_append]
  rfl

theorem stringify_inj {l1 r1 f1 l2 r2 f2 : String}
    (hl1 : plainStr l1 = true) (hr1 : plainStr r1 = true) (hf1 : plainStr f1 = true)
    (hl2 : plainStr l2 = true) (hr2 : plainStr r2 = true) (hf2 : plainStr f2 = true)
    (h : jsonStringifyHashData l1 r1 f1 = jsonStringifyHashData l2 r2 f2) :
    l1 = l2 ∧ r1 = r2 ∧ f1 = f2 := by
  have e := congrArg String.data h
  rw [stringify_data hl1 hr1 hf1, stringify_data hl2 hr2 hf2] at e
  have e1 := List.append_cancel_left e
  obtain ⟨el, e2⟩ := sep_split '"' _ _ _ _ (plain_no_quote hl1) (plain_no_quote hl2) e1
  have e3 := List.append_cancel_left e2
  obtain ⟨er, e4⟩ := sep_split '"' _ _ _ _ (plain_no_quote hr1) (plain_no_quote hr2) e3
  have e5 := List.append_cancel_left e4
  obtain ⟨ef, _⟩ := sep_split '"' _ _ _ _ (plain_no_quote hf1) (plain_no_quote hf2) e5
  exact ⟨String.ext el, String.ext er, String.ext ef⟩

theorem joinComma_cons2 (p q : String) (t : List String) :
    joinComma (p :: q :: t) = p ++ "," ++ joinComma (q :: t) := rfl

/-- `join(',')` is injective on equal-length lists of comma-free strings. -/
theorem joinComma_inj : ∀ (xs ys : List String),
    (∀ s ∈ xs, noComma s = true) → (∀ s ∈ ys, noComma s = true) →
    xs.length = ys.length → joinComma xs = joinComma ys → xs = ys
  | [], [], _, _, _, _ => rfl
  | [], _ :: _, _, _, hlen, _ => by simp at hlen
  | _ :: _, [], _, _, hlen, _ => by simp at hlen
  | [a], [b], _, _, _, h => by simpa [joinComma] using h
  | [a], _ :: _ :: _, _, _, hlen, _ => by simp at hlen
  | _ :: _ :: _, [b], _, _, hlen, _ => by simp at hlen
  | a :: a2 :: as, b :: b2 :: bs, hx, hy, hlen, h => by
    have e := congrArg String.data h
    rw [joinComma_cons2, joinComma_cons2] at e
    simp only [str_append_data, List.append_assoc] at e
    have hcomma : ∀ X : List Char, ",".data ++ X = ',' :: X := fun _ => rfl
    rw [hcomma, hcomma] at e
    obtain ⟨e1, e2⟩ := sep_split ',' _ _ _ _
      (no_comma_chars (hx a (by simp))) (no_comma_chars (hy b (by simp))) e
    have ih := joinComma_inj (a2 :: as) (b2 :: bs)
      (fun s hs => hx s (List.mem_cons_of_mem _ hs))
      (fun s hs => hy s (List.mem_cons_of_mem _ hs))
      (by simpa using hlen) (String.ext e2)
    rw [String.ext e1, ih]

theorem plain_lt256 {s : String} (h : plainStr s = true) : ∀ c ∈ s.data, c.toNat < 256 := by
  intro c hc
  have hp := (List.all_eq_true.mp h) c hc
  simp only [plainChar, Bool.and_eq_true, decide_eq_true_eq] at hp
  omega

theorem forall_cons_char {P : Char → Prop} {d : Char} (hd : P d) {t : List Char}
    (ht : ∀ c ∈ t, P c) : ∀ c ∈ d :: t, P c := by
  intro c hc
  rcases List.mem_cons.mp hc with rfl | hc2
  · exact hd
  · exact ht c hc2

theorem stringify_lt256 {l r f : String} (hl : plainStr l = true) (hr : plainStr r = true)
    (hf : plainStr f = true) :
    ∀ c ∈ (jsonStringifyHashData l r f).data, c.toNat < 256 := by
  rw [stringify_data hl hr hf]
  refine List.forall_mem_append.mpr ⟨by decide, ?_⟩
  refine List.forall_mem_append.mpr ⟨plain_lt256 hl, ?_⟩
  refine forall_cons_char (by decide) ?_
  refine List.forall_mem_append.mpr ⟨by decide, ?_⟩
  refine List.forall_mem_append.mpr ⟨plain_lt256 hr, ?_⟩
  refine forall_cons_char (by decide) ?_
  refine List.forall_mem_append.mpr ⟨by decide, ?_⟩
  refine List.forall_mem_append.mpr ⟨plain_lt256 hf, ?_⟩
  refine forall_cons_char (by decide) (by decide)

/-- The serialized-then-encoded signature determines all three inputs. -/
theorem hashRaw_inj {l1 r1 f1 l2 r2 f2 : String}
    (hl1 : plainStr l1 = true) (hr1 : plainStr r1 = true) (hf1 : plainStr f1 = true)
    (hl2 : plainStr l2 = true) (hr2 : plainStr r2 = true) (hf2 : plainStr f2 = true)
    (h : btoa (jsonStringifyHashData l1 r1 f1) = btoa (jsonStringifyHashData l2 r2 f2)) :
    l1 = l2 ∧ r1 = r2 ∧ f1 = f2 :=
  stringify_inj hl1 hr1 hf1 hl2 hr2 hf2
    (btoa_inj (stringify_lt256 hl1 hr1 hf1) (stringify_lt256 hl2 hr2 hf2) h)

/-- Comma-joining plain strings yields a plain string. -/
theorem joinComma_plain : ∀ (xs : List String), (∀ s ∈ xs, plainStr s = true) →
    plainStr (joinComma xs) = true
  | [], _ => rfl
  | [a], h => h a (by simp)
  | a :: a2 :: as, h => by
    have ih := joinComma_plain (a2 :: as) (fun s hs => h s (List.mem_cons_of_mem _ hs))
    rw [joinComma_cons2]
    simp only [plainStr, str_append_data, List.all_append, Bool.and_eq_true] at *
    exact ⟨⟨h a (by simp), by decide⟩, ih⟩
/-- Field-by-field description of a cycle whose latest fetch succeeded. -/
theorem fetch_success_state (silent : Bool) (env : FetchEnv) (s : AppState)
    (hok : env.latestOk = true) :
    fetchAllEarthquakeData silent env s =
      { state :=
        { latestEarthquake :=
            match parseXMLData env.latestXML with
            | some e => some e
            | none => s.latestEarthquake
          recentEarthquakes := if env.recentOk then extractFeedList env.recentData else []
          feltEarthquakes := if env.feltOk then extractFeedList env.feltData else []
          loading := if silent then s.loading else false
          error := if silent then s.error else none
          hasNewData := silent &&
            (((s.lastDataHash != "") && (cycleHash env != s.lastDataHash)) || s.hasNewData)
          lastDataHash := cycleHash env
          lastUpdated := some env.now }
        notified := shouldNotify s.lastDataHash (cycleHash env) silent
          (parseXMLData env.latestXML) env.notificationGranted } := by
  cases silent with
  | false =>
    cases hp : parseXMLData env.latestXML with
    | none =>
      cases hpre : s.hasNewData <;>
        simp [fetchAllEarthquakeData, cycleHash, hok, hp, hpre, apply_ite]
    | some e =>
      cases hpre : s.hasNewData <;>
        simp [fetchAllEarthquakeData, cycleHash, hok, hp, hpre, apply_ite]
  | true =>
    cases hp : parseXMLData env.latestXML with
    | none => simp [fetchAllEarthquakeData, cycleHash, hok, hp, apply_ite]
    | some e => simp [fetchAllEarthquakeData, cycleHash, hok, hp, apply_ite]

/-- A failed latest fetch: the `catch`/`finally` blocks are the only code
that still runs, so only `loading`/`error` can change, and only on a
foreground cycle. -/
theorem fetch_failure_state (silent : Bool) (env : FetchEnv) (s : AppState)
    (h : env.latestOk = false) :
    fetchAllEarthquakeData silent env s =
      { state :=
        { s with
          loading := if silent then s.loading else false
          error := if silent then s.error
            else some "Gagal mengambil data gempa. Silakan coba lagi." }
        notified := false } := by
  cases silent <;> simp [fetchAllEarthquakeData, h]

/-! ## Claim theorems -/

/-- Claim C1, counterexample: the empty magnitude string does not parse,
yet `getMagnitudeInfo` classifies it as 'Gempa Kuat' (the highest bucket),
not 'Gempa Ringan' as the claim states: `parseFloat('')` is `NaN`, both
`<` comparisons are false, and control falls into the final `else`. -/
theorem c1_counterexample :
    parseFloatQ "" = none ∧ getMagnitudeInfo "" = "Gempa Kuat" ∧
      getMagnitudeInfo "" ≠ "Gempa Ringan" := by
  decide

/-- Claim C1, amended: every magnitude string that does not parse as a
number is classified in the HIGHEST severity bucket 'Gempa Kuat' (M ≥ 6
class), because `NaN` fails both `<` tests and reaches the final `else`. -/
theorem c1_unparsable_magnitude_is_kuat (m : String) (h : parseFloatQ m = none) :
    getMagnitudeInfo m = "Gempa Kuat" := by
  simp [getMagnitudeInfo, h, jsLt]

/-- Claim C1, witness: the amended theorem at the non-numeric input "abc". -/
theorem c1_witness : parseFloatQ "abc" = none ∧ getMagnitudeInfo "abc" = "Gempa Kuat" :=
  ⟨by decide, c1_unparsable_magnitude_is_kuat "abc" (by decide)⟩

/-- Claim C2: the notification decision is true iff the cycle is
background, the stored signature is non-empty, the candidate signature
differs, the candidate latest event exists and its magnitude parses to a
number ≥ 6.0, and permission is granted; and on a foreground cycle it is
false whatever the other inputs. -/
theorem c2_notification_gate :
    ∀ (lastHash newHash : String) (silent : Bool) (parsedLatest : Option EarthquakeData)
      (granted : Bool),
      (shouldNotify lastHash newHash silent parsedLatest granted = true ↔
        (silent = true ∧ lastHash ≠ "" ∧ newHash ≠ lastHash ∧
          (∃ e q, parsedLatest = some e ∧ parseFloatQ e.Magnitude = some q ∧ 6 ≤ q) ∧
          granted = true)) ∧
      shouldNotify lastHash newHash false parsedLatest granted = false := by
  intro lastHash newHash silent parsedLatest granted
  constructor
  · unfold shouldNotify
    cases parsedLatest with
    | none => simp
    | some e =>
      cases hq : parseFloatQ e.Magnitude with
      | none => simp [jsGe, hq]
      | some q =>
        simp only [Bool.and_eq_true, bne_iff_ne, ne_eq, jsGe, hq, decide_eq_true_eq,
          Option.some.injEq]
        constructor
        · rintro ⟨⟨⟨⟨h1, h2⟩, h3⟩, h4⟩, h5⟩
          exact ⟨h3, h1, h2, ⟨e, q, rfl, hq, h4⟩, h5⟩
        · rintro ⟨h3, h1, h2, ⟨e2, q2, he, hq2, h6⟩, h5⟩
          cases he
          rw [hq] at hq2
          cases hq2
          exact ⟨⟨⟨⟨h1, h2⟩, h3⟩, h6⟩, h5⟩
  · simp [shouldNotify]

/-- Claim C3, counterexample: a foreground cycle whose latest XML lacks
the `gempa` root does not leave the snapshot unchanged and surfaces no
parse error: the recent list is overwritten (here emptied) and the
signature is recomputed, while `error` stays `none`. -/
theorem c3_counterexample :
    parseXMLData envC3.latestXML = none ∧
    (fetchAllEarthquakeData false envC3 stateC3).state ≠ stateC3 ∧
    (fetchAllEarthquakeData false envC3 stateC3).state.error = none := by
  decide

/-- Claim C3, amended: on a foreground cycle whose latest XML lacks the
mandatory root element, only the latest-event field is protected: it stays
unchanged, no error is surfaced (`error` is cleared to `none`), and the
cycle still commits the recent list, the felt list, a signature computed
with an absent latest event, and fires no notification. -/
theorem c3_foreground_missing_root_commits (env : FetchEnv) (s : AppState)
    (hok : env.latestOk = true) (hxml : env.latestXML.gempa = none) :
    (fetchAllEarthquakeData false env s).state.latestEarthquake = s.latestEarthquake ∧
    (fetchAllEarthquakeData false env s).state.error = none ∧
    (fetchAllEarthquakeData false env s).state.recentEarthquakes =
      (if env.recentOk then extractFeedList env.recentData else []) ∧
    (fetchAllEarthquakeData false env s).state.feltEarthquakes =
      (if env.feltOk then extractFeedList env.feltData else []) ∧
    (fetchAllEarthquakeData false env s).state.lastDataHash = cycleHash env ∧
    (fetchAllEarthquakeData false env s).notified = false := by
  have hp : parseXMLData env.latestXML = none := by simp [parseXMLData, hxml]
  rw [fetch_success_state false env s hok]
  simp [hp, shouldNotify]

/-- Claim C3, witness: the amended theorem at a concrete rootless payload. -/
theorem c3_witness :
    (fetchAllEarthquakeData false envC3 stateC3).state.latestEarthquake =
      stateC3.latestEarthquake ∧
    (fetchAllEarthquakeData false envC3 stateC3).state.error = none := by
  have h := c3_foreground_missing_root_commits envC3 stateC3 rfl rfl
  exact ⟨h.1, h.2.1⟩

/-- Claim C4: a well-formed list feed yields at most 15 records; a feed
with 20 entries yields exactly the first 15 in feed order; an absent
wrapper or absent inner array yields the empty list, not a failure. -/
theorem c4_list_feed_truncation :
    (∀ d : RecentEarthquakeData, (extractFeedList d).length ≤ 15) ∧
    (∀ l : List RecentEarthquake, l.length = 20 →
      extractFeedList ⟨some ⟨some l⟩⟩ = l.take 15 ∧
      (extractFeedList ⟨some ⟨some l⟩⟩).length = 15) ∧
    extractFeedList ⟨none⟩ = [] ∧
    extractFeedList ⟨some ⟨none⟩⟩ = [] := by
  refine ⟨?_, ?_, rfl, rfl⟩
  · intro d
    rcases d with ⟨ig⟩
    rcases ig with _ | ⟨g⟩
    · simp [extractFeedList]
    · rcases g with _ | l
      · simp [extractFeedList]
      · simp only [extractFeedList, List.length_take]
        omega
  · intro l hl
    refine ⟨rfl, ?_⟩
    simp [extractFeedList, hl]

/-- Claim C4, witness: the truncation conjunct at a concrete 20-entry feed. -/
theorem c4_witness :
    extractFeedList ⟨some ⟨some (List.replicate 20 recA)⟩⟩ =
      (List.replicate 20 recA).take 15 :=
  (c4_list_feed_truncation.2.1 (List.replicate 20 recA) (by simp)).1

/-- Claim C5: `generateDataHash` is a pure function of exactly the three
timestamp inputs (equal inputs give character-identical signatures), and
reordering the distinct timestamps of either list — comma-free printable
timestamps, as ISO-8601 ones are — changes the signature. -/
theorem c5_signature_deterministic_order_sensitive :
    (∀ (l1 l2 : Option EarthquakeData) (r1 r2 f1 f2 : List RecentEarthquake),
      (l1.map EarthquakeData.DateTime).getD "" = (l2.map EarthquakeData.DateTime).getD "" →
      r1.map RecentEarthquake.DateTime = r2.map RecentEarthquake.DateTime →
      f1.map RecentEarthquake.DateTime = f2.map RecentEarthquake.DateTime →
      generateDataHash l1 r1 f1 = generateDataHash l2 r2 f2) ∧
    (∀ (latest : Option EarthquakeData) (recent recent' felt : List RecentEarthquake),
      plainStr ((latest.map EarthquakeData.DateTime).getD "") = true →
      (∀ s ∈ recent.map RecentEarthquake.DateTime, plainStr s = true ∧ noComma s = true) →
      (∀ s ∈ recent'.map RecentEarthquake.DateTime, plainStr s = true ∧ noComma s = true) →
      (∀ s ∈ felt.map RecentEarthquake.DateTime, plainStr s = true) →
      (recent.map RecentEarthquake.DateTime).Perm (recent'.map RecentEarthquake.DateTime) →
      (recent.map RecentEarthquake.DateTime).Nodup →
      recent.map RecentEarthquake.DateTime ≠ recent'.map RecentEarthquake.DateTime →
      generateDataHash latest recent felt ≠ generateDataHash latest recent' felt) ∧
    (∀ (latest : Option EarthquakeData) (recent felt felt' : List RecentEarthquake),
      plainStr ((latest.map EarthquakeData.DateTime).getD "") = true →
      (∀ s ∈ recent.map RecentEarthquake.DateTime, plainStr s = true) →
      (∀ s ∈ felt.map RecentEarthquake.DateTime, plainStr s = true ∧ noComma s = true) →
      (∀ s ∈ felt'.map RecentEarthquake.DateTime, plainStr s = true ∧ noComma s = true) →
      (felt.map RecentEarthquake.DateTime).Perm (felt'.map RecentEarthquake.DateTime) →
      (felt.map RecentEarthquake.DateTime).Nodup →
      felt.map RecentEarthquake.DateTime ≠ felt'.map RecentEarthquake.DateTime →
      generateDataHash latest recent felt ≠ generateDataHash latest recent felt') := by
  refine ⟨?_, ?_, ?_⟩
  · intro l1 l2 r1 r2 f1 f2 h1 h2 h3
    unfold generateDataHash
    rw [h1, h2, h3]
  · intro latest recent recent' felt hL hr hr' hfelt hperm _ hne heq
    unfold generateDataHash at heq
    have hinj := hashRaw_inj hL (joinComma_plain _ (fun s hs => (hr s hs).1))
      (joinComma_plain _ hfelt) hL (joinComma_plain _ (fun s hs => (hr' s hs).1))
      (joinComma_plain _ hfelt) heq
    exact hne (joinComma_inj _ _ (fun s hs => (hr s hs).2) (fun s hs => (hr' s hs).2)
      hperm.length_eq hinj.2.1)
  · intro latest recent felt felt' hL hr hf hf' hperm _ hne heq
    unfold generateDataHash at heq
    have hinj := hashRaw_inj hL (joinComma_plain _ hr)
      (joinComma_plain _ (fun s hs => (hf s hs).1)) hL (joinComma_plain _ hr)
      (joinComma_plain _ (fun s hs => (hf' s hs).1)) heq
    exact hne (joinComma_inj _ _ (fun s hs => (hf s hs).2) (fun s hs => (hf' s hs).2)
      hperm.length_eq hinj.2.2)

/-- Claim C5, witness: determinism and order-sensitivity at concrete
two-timestamp lists. -/
theorem c5_witness :
    generateDataHash none [recA, recB] [] = generateDataHash none [recA, recB] [] ∧
    generateDataHash none [recA, recB] [] ≠ generateDataHash none [recB, recA] [] :=
  ⟨c5_signature_deterministic_order_sensitive.1 none none [recA, recB] [recA, recB] [] []
      rfl rfl rfl,
    c5_signature_deterministic_order_sensitive.2.1 none [recA, recB] [recB, recA] []
      (by decide) (by decide) (by decide) (by decide) (by decide) (by decide) (by decide)⟩

/-- Claim C6: a background cycle whose latest fetch fails (network error
or non-success status) changes nothing at all — every state field is
retained, no error is surfaced, no notification fires. -/
theorem c6_background_latest_failure_frame (env : FetchEnv) (s : AppState)
    (h : env.latestOk = false) :
    fetchAllEarthquakeData true env s = { state := s, notified := false } := by
  rw [fetch_failure_state true env s h]
  simp

/-- Claim C6, witness: the frame theorem at a concrete failing background
cycle. -/
theorem c6_witness :
    fetchAllEarthquakeData true envC6 initialAppState =
      { state := initialAppState, notified := false } :=
  c6_background_latest_failure_frame envC6 initialAppState rfl

/-- Claim C7: when the latest event fetches and parses but the recent or
felt source fails, the cycle still commits — the latest event is stored,
the failed list degrades to empty, the signature and timestamp are
refreshed, and a foreground caller sees no error. -/
theorem c7_optional_source_degradation (silent : Bool) (env : FetchEnv) (s : AppState)
    (e : EarthquakeData) (hok : env.latestOk = true)
    (hparse : parseXMLData env.latestXML = some e) :
    (env.recentOk = false → (fetchAllEarthquakeData silent env s).state.recentEarthquakes = []) ∧
    (env.feltOk = false → (fetchAllEarthquakeData silent env s).state.feltEarthquakes = []) ∧
    (fetchAllEarthquakeData silent env s).state.latestEarthquake = some e ∧
    (fetchAllEarthquakeData silent env s).state.lastDataHash = cycleHash env ∧
    (fetchAllEarthquakeData silent env s).state.lastUpdated = some env.now ∧
    (silent = false → (fetchAllEarthquakeData silent env s).state.error = none) := by
  rw [fetch_success_state silent env s hok]
  exact ⟨fun hr => by simp [hr], fun hf => by simp [hf], by simp [hparse], rfl, rfl,
    fun hs => by simp [hs]⟩

/-- Claim C7, witness: a foreground cycle with a failing recent feed and a
parsing latest event. -/
theorem c7_witness :
    (fetchAllEarthquakeData false envC7 initialAppState).state.recentEarthquakes = [] ∧
    (fetchAllEarthquakeData false envC7 initialAppState).state.latestEarthquake = some eC7 ∧
    (fetchAllEarthquakeData false envC7 initialAppState).state.error = none := by
  have h := c7_optional_source_degradation false envC7 initialAppState eC7 rfl (by decide)
  exact ⟨h.1 rfl, h.2.2.1, h.2.2.2.2.2 rfl⟩

/-- Claim C8, counterexample: a background cycle whose candidate signature
differs from the stored one (here: the empty initial signature) does NOT
set `hasNewData` — the change test additionally requires a non-empty
previous signature, so 'exactly when the signature differs and the cycle
is background' is false. -/
theorem c8_counterexample :
    initialAppState.lastDataHash = "" ∧
    cycleHash envC8 ≠ initialAppState.lastDataHash ∧
    (fetchAllEarthquakeData true envC8 initialAppState).state.hasNewData = false := by
  decide

/-- Claim C8, amended: a successful commit sets `hasNewData` exactly when
the cycle is background, the previously stored signature is non-empty and
the incoming signature differs; a successful foreground refresh always
clears it; a background cycle never clears it (nor does a failed cycle
change it); and a background cycle whose signature is unchanged fires no
notification whatever the magnitude. -/
theorem c8_unseen_data_flag (silent : Bool) (env : FetchEnv) (s : AppState) :
    (env.latestOk = false →
      (fetchAllEarthquakeData silent env s).state.hasNewData = s.hasNewData) ∧
    (env.latestOk = true →
      ((s.hasNewData = false →
        ((fetchAllEarthquakeData silent env s).state.hasNewData = true ↔
          (silent = true ∧ s.lastDataHash ≠ "" ∧ cycleHash env ≠ s.lastDataHash))) ∧
       (silent = false → (fetchAllEarthquakeData silent env s).state.hasNewData = false) ∧
       (silent = true → s.hasNewData = true →
         (fetchAllEarthquakeData silent env s).state.hasNewData = true) ∧
       (silent = true → cycleHash env = s.lastDataHash →
         (fetchAllEarthquakeData silent env s).notified = false))) := by
  constructor
  · intro h
    rw [fetch_failure_state silent env s h]
  · intro hok
    rw [fetch_success_state silent env s hok]
    refine ⟨?_, ?_, ?_, ?_⟩
    · intro hpre
      simp [hpre, Bool.and_eq_true, bne_iff_ne, and_assoc]
    · intro hs
      simp [hs]
    · intro hs hpre
      simp [hs, hpre]
    · intro hs heq
      simp [shouldNotify, heq]

/-- Claim C8, witness: a background cycle with magnitude 7.0 whose
signature equals the stored one leaves `hasNewData` false and fires no
notification. -/
theorem c8_witness :
    (fetchAllEarthquakeData true envC8 stateC8).state.hasNewData = false ∧
    (fetchAllEarthquakeData true envC8 stateC8).notified = false := by
  have h := (c8_unseen_data_flag true envC8 stateC8).2 rfl
  have hiff := h.1 rfl
  refine ⟨?_, h.2.2.2 rfl rfl⟩
  cases hb : (fetchAllEarthquakeData true envC8 stateC8).state.hasNewData with
  | false => rfl
  | true => exact absurd (hiff.mp hb) (by rintro ⟨-, -, hne⟩; exact hne rfl)

/-- Claim C9, counterexample: toggling `autoUpdate` from false to true
does re-arm the timer, but it also performs an immediate foreground
fetch — the effect body runs `fetchAllEarthquakeData()` on every
dependency change — contradicting 'performs no immediate fetch'. -/
theorem c9_counterexample :
    (toggleAutoUpdate { autoUpdate := false, intervalArmed := false }).1.intervalArmed = true ∧
    (toggleAutoUpdate { autoUpdate := false, intervalArmed := false }).2 = 1 ∧
    (toggleAutoUpdate { autoUpdate := false, intervalArmed := false }).2 ≠ 0 := by
  decide

/-- Claim C9, amended: toggling `autoUpdate` to false cancels the pending
timer and toggling it to true re-arms it, but either toggle re-runs the
effect, which performs exactly one immediate foreground fetch before the
next scheduled tick. -/
theorem c9_toggle_autoupdate (s : SchedulerState) :
    toggleAutoUpdate s =
      ({ autoUpdate := !s.autoUpdate, intervalArmed := !s.autoUpdate }, 1) := rfl

/-- Claim C10: on the very first completed cycle of a session (stored
signature still the initial empty string, flag still false), `hasNewData`
is never set — even on a background cycle whose candidate signature
necessarily differs — because the change test requires a non-empty
previous signature. -/
theorem c10_first_cycle_never_unseen (silent : Bool) (env : FetchEnv) (s : AppState)
    (hhash : s.lastDataHash = "") (hpre : s.hasNewData = false) :
    (fetchAllEarthquakeData silent env s).state.hasNewData = false := by
  cases hok : env.latestOk with
  | false => rw [fetch_failure_state silent env s hok]; simpa using hpre
  | true => rw [fetch_success_state silent env s hok]; simp [hhash, hpre]

/-- Claim C10, witness: the first background cycle of a session against a
payload that yields a fresh signature. -/
theorem c10_witness :
    (fetchAllEarthquakeData true envC8 initialAppState).state.hasNewData = false :=
  c10_first_cycle_never_unseen true envC8 initialAppState rfl rfl
